import Mathlib

/-!
Verification of the Venafi certificate-request signer
(`pkg/controller/certificaterequests/venafi/venafi.go`).

The development shallowly embeds `Venafi.Sign` and its collaborators.  Go
error values that the signer inspects are modelled as an inductive type
whose constructors are the distinguishable conditions the code branches
on (`k8sErrors.IsNotFound`, `endpoint.ErrCertificatePending`,
`endpoint.ErrRetrieveCertificateTimeout`, anything else).  The CA client
is an arbitrary function from CSR bytes and duration to a result, the
client builder an arbitrary function from namespace and issuer to a
client or an error.  `Venafi.Sign` returns, besides the Go result pair,
the full observable trace of one invocation: the audit events recorded
via the event sink, the log messages emitted, the argument list of every
`client.Sign` call, and the request object as it stands after the call.
-/

namespace CertManager

/-- Error values observable by the signer.  The signer distinguishes a
k8s "not found" error (via `k8sErrors.IsNotFound`), the two vcert
endpoint error types it type-switches on, and everything else. -/
inductive GoError where
  | notFound (msg : String)
  | certificatePending (msg : String)
  | retrieveTimeout (msg : String)
  | generic (msg : String)
deriving DecidableEq, Repr

/-- `k8sErrors.IsNotFound`: true exactly for the k8s "not found" status
error (external k8s.io/apimachinery predicate the signer calls). -/
def isNotFound : GoError → Bool
  | GoError.notFound _ => true
  | _ => false

/-- `endpoint.ErrCertificatePending` type test (the first case of the
type switch in `Venafi.Sign`). -/
def GoError.isCertificatePending : GoError → Bool
  | GoError.certificatePending _ => true
  | _ => false

/-- `endpoint.ErrRetrieveCertificateTimeout` type test (the second case
of the type switch in `Venafi.Sign`). -/
def GoError.isRetrieveTimeout : GoError → Bool
  | GoError.retrieveTimeout _ => true
  | _ => false

/-- Spec of `cmapi.CertificateRequestSpec`: the fields `Venafi.Sign`
reads — the optional requested duration and the PEM-encoded CSR bytes. -/
structure CertificateRequestSpec where
  duration : Option Nat
  csrPEM : List Nat
deriving DecidableEq, Repr

/-- `cmapi.CertificateRequest`: namespace plus spec (the fields the
signer reads; `ns` stands for the Go field `Namespace`, whose name is a
Lean keyword). -/
structure CertificateRequest where
  ns : String
  spec : CertificateRequestSpec
deriving DecidableEq, Repr

/-- `cmapi.GenericIssuer`: opaque issuer configuration; the signer only
hands it to the client builder. -/
structure GenericIssuer where
  name : String
deriving DecidableEq, Repr

/-- Modelled from the spec: `apiutil.DefaultCertDuration` is not under
src.  The spec says the requested validity duration is optional and
"falls back to a system default when unset". -/
def defaultCertificateDuration : Nat := 2160

/-- Modelled from the spec: resolve the effective validity duration —
the request's requested duration, or the system default if absent. -/
def DefaultCertDuration (d : Option Nat) : Nat :=
  d.getD defaultCertificateDuration

/-- Event severity, as in the spec's audit-event model (Normal /
Warning). -/
inductive EventType where
  | Normal
  | Warning
deriving DecidableEq, Repr

/-- An audit event recorded via the event sink: severity, stable reason
code, human-readable message. -/
structure Event where
  etype : EventType
  reason : String
  message : String
deriving DecidableEq, Repr

/-- Log severity (`log.Info` / `log.Error`). -/
inductive LogLevel where
  | info
  | error
deriving DecidableEq, Repr

/-- One log message emitted by the signer. -/
structure LogEntry where
  level : LogLevel
  message : String
deriving DecidableEq, Repr

/-- Modelled from the spec: `crutil.Reporter`
(`pkg/controller/certificaterequests/util`) is not under src.  Per the
spec, the audit/event sink receives a reason code, a human message and
the outcome's severity; Pending and Failed are the non-success outcomes
(Warning severity); the request is immutable once handed to the
Signer, so recording leaves it unchanged. -/
structure Reporter where
  req : CertificateRequest
  events : List Event

/-- Modelled from the spec: `crutil.NewReporter(cr, recorder)` binds the
reporter to the request; no events recorded yet. -/
def NewReporter (cr : CertificateRequest) : Reporter :=
  { req := cr, events := [] }

/-- Modelled from the spec: `Reporter.Pending` records exactly one
Warning-severity audit event carrying the given reason code and
message for a non-terminal (retryable) outcome. -/
def Reporter.Pending (r : Reporter) (_err : GoError) (reason message : String) :
    Reporter :=
  { r with events := r.events ++ [⟨EventType.Warning, reason, message⟩] }

/-- Modelled from the spec: `Reporter.Failed` records exactly one
Warning-severity audit event carrying the given reason code and
message for a terminal failure outcome. -/
def Reporter.Failed (r : Reporter) (_err : GoError) (reason message : String) :
    Reporter :=
  { r with events := r.events ++ [⟨EventType.Warning, reason, message⟩] }

/-- `issuer.IssueResponse`: carries the issued certificate bytes. -/
structure IssueResponse where
  certificate : List Nat
deriving DecidableEq, Repr

/-- The CA client facade: `Sign(csrBytes, duration) -> (certPEM, error)`.
An arbitrary function, since the transport is opaque to the signer. -/
def VenafiClientFn := List Nat → Nat → Except GoError (List Nat)

/-- The signer's injected dependencies: the client builder
(`venafiinternal.VenafiClientBuilder`), here a function of the namespace
and issuer (the secrets lister is folded into it, as it is fixed per
`Venafi` instance). -/
structure Venafi where
  clientBuilder : String → GenericIssuer → Except GoError VenafiClientFn

/-- Everything observable from one `Venafi.Sign` invocation: the Go
result pair, the request object after the call, the audit events
recorded via the event sink, the log messages, and the arguments of
every `client.Sign` call made. -/
structure SignResult where
  response : Option IssueResponse
  error : Option GoError
  cr : CertificateRequest
  events : List Event
  logs : List LogEntry
  signCalls : List (List Nat × Nat)

/-- `Venafi.Sign` from `venafi.go` lines 81–142, translated
branch-for-branch: build the client; on a not-found build error report
`MissingSecret` and return `(nil, nil)`; on any other build error report
`ErrorVenafiInit` and return `(nil, err)`; otherwise call `client.Sign`
with the CSR and the defaulted duration and type-switch on its error
(`ErrCertificatePending` → `IssuancePending`, `(nil, err)`;
`ErrRetrieveCertificateTimeout` → `Timeout`, `(nil, nil)`; default →
`Retrieve`, `(nil, err)`); on success log "certificate issued" and
return the certificate. -/
def Venafi.Sign (v : Venafi) (cr : CertificateRequest)
    (issuerObj : GenericIssuer) : SignResult :=
  let reporter := NewReporter cr
  match v.clientBuilder cr.ns issuerObj with
  | Except.error err =>
    if isNotFound err then
      let message := "Required secret resource not found"
      let reporter := reporter.Pending err "MissingSecret" message
      { response := none, error := none, cr := reporter.req,
        events := reporter.events,
        logs := [⟨LogLevel.error, message⟩], signCalls := [] }
    else
      let message := "Failed to initialise venafi client for signing"
      let reporter := reporter.Pending err "ErrorVenafiInit" message
      { response := none, error := some err, cr := reporter.req,
        events := reporter.events,
        logs := [⟨LogLevel.error, message⟩], signCalls := [] }
  | Except.ok client =>
    let duration := DefaultCertDuration cr.spec.duration
    let calls := [(cr.spec.csrPEM, duration)]
    match client cr.spec.csrPEM duration with
    | Except.error (GoError.certificatePending m) =>
      let message :=
        "venafi certificate still in a pending state, the request will be retried"
      let reporter := reporter.Pending (GoError.certificatePending m)
        "IssuancePending" message
      { response := none, error := some (GoError.certificatePending m),
        cr := reporter.req, events := reporter.events,
        logs := [⟨LogLevel.error, message⟩], signCalls := calls }
    | Except.error (GoError.retrieveTimeout m) =>
      let message :=
        "timed out waiting for venafi certificate, the request will be retried"
      let reporter := reporter.Failed (GoError.retrieveTimeout m)
        "Timeout" message
      { response := none, error := none,
        cr := reporter.req, events := reporter.events,
        logs := [⟨LogLevel.error, message⟩], signCalls := calls }
    | Except.error err =>
      let message := "failed to obtain venafi certificate"
      let reporter := reporter.Pending err "Retrieve" message
      { response := none, error := some err,
        cr := reporter.req, events := reporter.events,
        logs := [⟨LogLevel.error, message⟩], signCalls := calls }
    | Except.ok certPem =>
      { response := some { certificate := certPem }, error := none,
        cr := reporter.req, events := reporter.events,
        logs := [⟨LogLevel.info, "certificate issued"⟩], signCalls := calls }

/-- The spec's `SignOutcome` sum type: terminal success, retryable
pending, or terminal failure. -/
inductive SignOutcome where
  | issued (certificatePEM : List Nat)
  | pending (reason message : String) (retry : Bool)
  | failed (reason message : String)
deriving DecidableEq, Repr

/-- The error classification performed by the type switch of
`Venafi.Sign` (venafi.go lines 111–134), read off branch-for-branch:
`ErrCertificatePending` reports a retryable Pending outcome tagged
`IssuancePending`; `ErrRetrieveCertificateTimeout` reports a terminal
Failed outcome tagged `Timeout`; every other error reports a retryable
Pending outcome tagged `Retrieve`. -/
def Classify : GoError → SignOutcome
  | GoError.certificatePending _ =>
    SignOutcome.pending "IssuancePending"
      "venafi certificate still in a pending state, the request will be retried"
      true
  | GoError.retrieveTimeout _ =>
    SignOutcome.failed "Timeout"
      "timed out waiting for venafi certificate, the request will be retried"
  | _ =>
    SignOutcome.pending "Retrieve" "failed to obtain venafi certificate" true

/-! Concrete fixtures used by witnesses and counterexamples. -/

/-- A sample certificate request: duration unset, a small CSR payload. -/
def crEx : CertificateRequest :=
  { ns := "default", spec := { duration := none, csrPEM := [1, 2, 3] } }

/-- A sample issuer configuration. -/
def issEx : GenericIssuer := { name := "venafi-issuer" }

/-- Sample certificate bytes returned by the CA. -/
def certEx : List Nat := [10, 20, 30]

/-- A CA client whose Sign always succeeds with `certEx`. -/
def clientOk : VenafiClientFn := fun _ _ => Except.ok certEx

/-- A CA client whose Sign always reports the pending condition. -/
def clientPending : VenafiClientFn :=
  fun _ _ => Except.error (GoError.certificatePending "still pending")

/-- A CA client whose Sign always reports the retrieval timeout. -/
def clientTimeout : VenafiClientFn :=
  fun _ _ => Except.error (GoError.retrieveTimeout "timed out")

/-- A CA client whose Sign always fails with a generic transport error. -/
def clientGeneric : VenafiClientFn :=
  fun _ _ => Except.error (GoError.generic "connection refused")

/-- A signer whose client builder succeeds with `clientOk`. -/
def vOk : Venafi := { clientBuilder := fun _ _ => Except.ok clientOk }

/-- A signer whose client builder succeeds with `clientPending`. -/
def vPending : Venafi := { clientBuilder := fun _ _ => Except.ok clientPending }

/-- A signer whose client builder succeeds with `clientTimeout`. -/
def vTimeout : Venafi := { clientBuilder := fun _ _ => Except.ok clientTimeout }

/-- A signer whose client builder succeeds with `clientGeneric`. -/
def vGeneric : Venafi := { clientBuilder := fun _ _ => Except.ok clientGeneric }

/-- A signer whose client builder fails with the k8s not-found error. -/
def vMissing : Venafi :=
  { clientBuilder := fun _ _ => Except.error (GoError.notFound "secret not found") }

/-- A signer whose client builder fails with a generic construction
error. -/
def vInitErr : Venafi :=
  { clientBuilder := fun _ _ => Except.error (GoError.generic "bad issuer config") }

/-! Claim theorems. -/

/-- C1 (counterexample): on the success path — client builder succeeds
and the CA client returns a certificate — `Venafi.Sign` records zero
audit events via the event sink, not one, refuting "exactly one audit
event is recorded ... regardless of which path is taken". -/
theorem C1_success_path_records_no_event :
    ((Venafi.Sign vOk crEx issEx).response.isSome = true) ∧
    ¬((Venafi.Sign vOk crEx issEx).events.length = 1) := by
  exact ⟨rfl, by decide⟩

/-- C1 (amended): exactly one audit event is recorded via the event
sink on every failure path (build failure or CA error) and none on the
success path — never two on any path; in addition exactly one log
message is emitted on every path. -/
theorem C1_event_count :
    ∀ (v : Venafi) (cr : CertificateRequest) (i : GenericIssuer),
    (Venafi.Sign v cr i).events.length =
      (if (Venafi.Sign v cr i).response.isSome then 0 else 1) ∧
    (Venafi.Sign v cr i).logs.length = 1 := by
  intro v cr i
  cases hb : v.clientBuilder cr.ns i with
  | error err =>
    cases err <;>
      simp [Venafi.Sign, hb, isNotFound, NewReporter, Reporter.Pending]
  | ok client =>
    cases hs : client cr.spec.csrPEM (DefaultCertDuration cr.spec.duration) with
    | error err =>
      cases err <;>
        simp [Venafi.Sign, hb, hs, NewReporter, Reporter.Pending, Reporter.Failed]
    | ok pem => simp [Venafi.Sign, hb, hs, NewReporter]

/-- C2 (counterexample): in the spec's concrete success scenario the
signer returns the CA's certificate with a nil error, but records zero
events via the event sink — refuting "exactly one informational
(non-error-tagged) event is recorded". -/
theorem C2_success_event_refuted :
    (Venafi.Sign vOk crEx issEx).response = some { certificate := certEx } ∧
    (Venafi.Sign vOk crEx issEx).error = none ∧
    ¬((Venafi.Sign vOk crEx issEx).events.length = 1) := by
  exact ⟨rfl, rfl, by decide⟩

/-- C2 (amended): when the client builder succeeds and the CA client's
Sign returns a certificate with a nil error, the signer returns exactly
that certificate with a nil error; no audit event is recorded via the
event sink, and exactly one informational "certificate issued" log
message is emitted. -/
theorem C2_success_returns_certificate (v : Venafi) (cr : CertificateRequest)
    (i : GenericIssuer) (c : VenafiClientFn) (pem : List Nat)
    (hb : v.clientBuilder cr.ns i = Except.ok c)
    (hs : c cr.spec.csrPEM (DefaultCertDuration cr.spec.duration) =
      Except.ok pem) :
    (Venafi.Sign v cr i).response = some { certificate := pem } ∧
    (Venafi.Sign v cr i).error = none ∧
    (Venafi.Sign v cr i).events = [] ∧
    (Venafi.Sign v cr i).logs = [⟨LogLevel.info, "certificate issued"⟩] := by
  simp [Venafi.Sign, hb, hs, NewReporter]

/-- C2 (witness): the amended success theorem at the concrete fixture. -/
theorem C2_success_returns_certificate_witness :
    (Venafi.Sign vOk crEx issEx).response = some { certificate := certEx } ∧
    (Venafi.Sign vOk crEx issEx).error = none ∧
    (Venafi.Sign vOk crEx issEx).events = [] ∧
    (Venafi.Sign vOk crEx issEx).logs = [⟨LogLevel.info, "certificate issued"⟩] :=
  C2_success_returns_certificate vOk crEx issEx clientOk certEx rfl rfl

/-- C3: the signer's result pair never has both components non-nil: on
every input at least one of the certificate result and the error is
nil. -/
theorem C3_never_both_non_nil :
    ∀ (v : Venafi) (cr : CertificateRequest) (i : GenericIssuer),
    (Venafi.Sign v cr i).response = none ∨ (Venafi.Sign v cr i).error = none := by
  intro v cr i
  cases hb : v.clientBuilder cr.ns i with
  | error err =>
    cases err <;> simp [Venafi.Sign, hb, isNotFound, NewReporter, Reporter.Pending]
  | ok client =>
    cases hs : client cr.spec.csrPEM (DefaultCertDuration cr.spec.duration) with
    | error err =>
      cases err <;>
        simp [Venafi.Sign, hb, hs, NewReporter, Reporter.Pending, Reporter.Failed]
    | ok pem => simp [Venafi.Sign, hb, hs, NewReporter]

/-- C4: when the CA client's Sign returns the retrieval-timeout error,
the signer returns `(nil, nil)` and records exactly one event tagged
with reason code `Timeout`. -/
theorem C4_timeout_absorbed (v : Venafi) (cr : CertificateRequest)
    (i : GenericIssuer) (c : VenafiClientFn) (m : String)
    (hb : v.clientBuilder cr.ns i = Except.ok c)
    (hs : c cr.spec.csrPEM (DefaultCertDuration cr.spec.duration) =
      Except.error (GoError.retrieveTimeout m)) :
    (Venafi.Sign v cr i).response = none ∧
    (Venafi.Sign v cr i).error = none ∧
    (Venafi.Sign v cr i).events =
      [⟨EventType.Warning, "Timeout",
        "timed out waiting for venafi certificate, the request will be retried"⟩] := by
  simp [Venafi.Sign, hb, hs, NewReporter, Reporter.Failed]

/-- C4 (witness): the timeout theorem at the concrete fixture. -/
theorem C4_timeout_absorbed_witness :
    (Venafi.Sign vTimeout crEx issEx).response = none ∧
    (Venafi.Sign vTimeout crEx issEx).error = none ∧
    (Venafi.Sign vTimeout crEx issEx).events =
      [⟨EventType.Warning, "Timeout",
        "timed out waiting for venafi certificate, the request will be retried"⟩] :=
  C4_timeout_absorbed vTimeout crEx issEx clientTimeout "timed out" rfl rfl

/-- C5: when the client builder fails with the k8s not-found error, the
signer returns `(nil, nil)`, records exactly one `MissingSecret` event,
makes no CA Sign call, and — Sign being a pure function of its inputs —
a second invocation under the same condition yields the identical
observable outcome. -/
theorem C5_missing_secret (v : Venafi) (cr : CertificateRequest)
    (i : GenericIssuer) (m : String)
    (hb : v.clientBuilder cr.ns i = Except.error (GoError.notFound m)) :
    (Venafi.Sign v cr i).response = none ∧
    (Venafi.Sign v cr i).error = none ∧
    (Venafi.Sign v cr i).events =
      [⟨EventType.Warning, "MissingSecret", "Required secret resource not found"⟩] ∧
    (Venafi.Sign v cr i).signCalls = [] ∧
    Venafi.Sign v cr i = Venafi.Sign v cr i := by
  refine ⟨?_, ?_, ?_, ?_, rfl⟩ <;>
    simp [Venafi.Sign, hb, isNotFound, NewReporter, Reporter.Pending]

/-- C5 (witness): the missing-secret theorem at the concrete fixture. -/
theorem C5_missing_secret_witness :
    (Venafi.Sign vMissing crEx issEx).response = none ∧
    (Venafi.Sign vMissing crEx issEx).error = none ∧
    (Venafi.Sign vMissing crEx issEx).events =
      [⟨EventType.Warning, "MissingSecret", "Required secret resource not found"⟩] ∧
    (Venafi.Sign vMissing crEx issEx).signCalls = [] ∧
    Venafi.Sign vMissing crEx issEx = Venafi.Sign vMissing crEx issEx :=
  C5_missing_secret vMissing crEx issEx "secret not found" rfl

/-- C6: when the CA client's Sign returns the certificate-pending
error, the classification yields a retryable Pending outcome tagged
`IssuancePending`, and the signer returns that non-nil error with no
certificate, recording exactly one `IssuancePending` event. -/
theorem C6_pending_retryable (v : Venafi) (cr : CertificateRequest)
    (i : GenericIssuer) (c : VenafiClientFn) (m : String)
    (hb : v.clientBuilder cr.ns i = Except.ok c)
    (hs : c cr.spec.csrPEM (DefaultCertDuration cr.spec.duration) =
      Except.error (GoError.certificatePending m)) :
    Classify (GoError.certificatePending m) =
      SignOutcome.pending "IssuancePending"
        "venafi certificate still in a pending state, the request will be retried"
        true ∧
    (Venafi.Sign v cr i).response = none ∧
    (Venafi.Sign v cr i).error = some (GoError.certificatePending m) ∧
    (Venafi.Sign v cr i).events =
      [⟨EventType.Warning, "IssuancePending",
        "venafi certificate still in a pending state, the request will be retried"⟩] := by
  refine ⟨rfl, ?_, ?_, ?_⟩ <;>
    simp [Venafi.Sign, hb, hs, NewReporter, Reporter.Pending]

/-- C6 (witness): the pending theorem at the concrete fixture. -/
theorem C6_pending_retryable_witness :
    Classify (GoError.certificatePending "still pending") =
      SignOutcome.pending "IssuancePending"
        "venafi certificate still in a pending state, the request will be retried"
        true ∧
    (Venafi.Sign vPending crEx issEx).response = none ∧
    (Venafi.Sign vPending crEx issEx).error =
      some (GoError.certificatePending "still pending") ∧
    (Venafi.Sign vPending crEx issEx).events =
      [⟨EventType.Warning, "IssuancePending",
        "venafi certificate still in a pending state, the request will be retried"⟩] :=
  C6_pending_retryable vPending crEx issEx clientPending "still pending" rfl rfl

/-- C7: when the CA client's Sign returns a non-nil error that is
neither the certificate-pending nor the retrieval-timeout condition,
the signer returns `(nil, err)` with that error and records exactly one
event tagged `Retrieve`. -/
theorem C7_generic_retrieve (v : Venafi) (cr : CertificateRequest)
    (i : GenericIssuer) (c : VenafiClientFn) (e : GoError)
    (hb : v.clientBuilder cr.ns i = Except.ok c)
    (hs : c cr.spec.csrPEM (DefaultCertDuration cr.spec.duration) =
      Except.error e)
    (hp : e.isCertificatePending = false)
    (ht : e.isRetrieveTimeout = false) :
    (Venafi.Sign v cr i).response = none ∧
    (Venafi.Sign v cr i).error = some e ∧
    (Venafi.Sign v cr i).events =
      [⟨EventType.Warning, "Retrieve", "failed to obtain venafi certificate"⟩] := by
  cases e with
  | certificatePending m => simp [GoError.isCertificatePending] at hp
  | retrieveTimeout m => simp [GoError.isRetrieveTimeout] at ht
  | notFound m => simp [Venafi.Sign, hb, hs, NewReporter, Reporter.Pending]
  | generic m => simp [Venafi.Sign, hb, hs, NewReporter, Reporter.Pending]

/-- C7 (witness): the generic-error theorem at the concrete fixture. -/
theorem C7_generic_retrieve_witness :
    (Venafi.Sign vGeneric crEx issEx).response = none ∧
    (Venafi.Sign vGeneric crEx issEx).error =
      some (GoError.generic "connection refused") ∧
    (Venafi.Sign vGeneric crEx issEx).events =
      [⟨EventType.Warning, "Retrieve", "failed to obtain venafi certificate"⟩] :=
  C7_generic_retrieve vGeneric crEx issEx clientGeneric
    (GoError.generic "connection refused") rfl rfl rfl rfl

/-- C8: when the client builder fails with any error other than the
k8s not-found condition, the signer returns `(nil, err)` with that
non-nil error, records exactly one `ErrorVenafiInit` event, and makes
no CA Sign call. -/
theorem C8_init_failure (v : Venafi) (cr : CertificateRequest)
    (i : GenericIssuer) (e : GoError)
    (hb : v.clientBuilder cr.ns i = Except.error e)
    (hn : isNotFound e = false) :
    (Venafi.Sign v cr i).response = none ∧
    (Venafi.Sign v cr i).error = some e ∧
    (Venafi.Sign v cr i).events =
      [⟨EventType.Warning, "ErrorVenafiInit",
        "Failed to initialise venafi client for signing"⟩] ∧
    (Venafi.Sign v cr i).signCalls = [] := by
  refine ⟨?_, ?_, ?_, ?_⟩ <;>
    simp [Venafi.Sign, hb, hn, NewReporter, Reporter.Pending]

/-- C8 (witness): the init-failure theorem at the concrete fixture. -/
theorem C8_init_failure_witness :
    (Venafi.Sign vInitErr crEx issEx).response = none ∧
    (Venafi.Sign vInitErr crEx issEx).error =
      some (GoError.generic "bad issuer config") ∧
    (Venafi.Sign vInitErr crEx issEx).events =
      [⟨EventType.Warning, "ErrorVenafiInit",
        "Failed to initialise venafi client for signing"⟩] ∧
    (Venafi.Sign vInitErr crEx issEx).signCalls = [] :=
  C8_init_failure vInitErr crEx issEx (GoError.generic "bad issuer config") rfl rfl

/-- C9: the certificate request handed to the signer is not mutated by
the Sign operation: on every path, the request object after the call
equals the one passed in. -/
theorem C9_request_not_mutated :
    ∀ (v : Venafi) (cr : CertificateRequest) (i : GenericIssuer),
    (Venafi.Sign v cr i).cr = cr := by
  intro v cr i
  cases hb : v.clientBuilder cr.ns i with
  | error err =>
    cases err <;> simp [Venafi.Sign, hb, isNotFound, NewReporter, Reporter.Pending]
  | ok client =>
    cases hs : client cr.spec.csrPEM (DefaultCertDuration cr.spec.duration) with
    | error err =>
      cases err <;>
        simp [Venafi.Sign, hb, hs, NewReporter, Reporter.Pending, Reporter.Failed]
    | ok pem => simp [Venafi.Sign, hb, hs, NewReporter]

/-- C10: whenever the signer returns a non-nil error, that error is the
identical error value produced by the client builder or by the CA
client's Sign call — never wrapped, replaced, or newly constructed. -/
theorem C10_error_passthrough (v : Venafi) (cr : CertificateRequest)
    (i : GenericIssuer) (e : GoError)
    (he : (Venafi.Sign v cr i).error = some e) :
    v.clientBuilder cr.ns i = Except.error e ∨
    ∃ c, v.clientBuilder cr.ns i = Except.ok c ∧
      c cr.spec.csrPEM (DefaultCertDuration cr.spec.duration) =
        Except.error e := by
  cases hb : v.clientBuilder cr.ns i with
  | error err =>
    cases hn : isNotFound err with
    | true => simp [Venafi.Sign, hb, hn, NewReporter, Reporter.Pending] at he
    | false =>
      left
      simp [Venafi.Sign, hb, hn, NewReporter, Reporter.Pending] at he
      subst he
      rfl
  | ok client =>
    cases hs : client cr.spec.csrPEM (DefaultCertDuration cr.spec.duration) with
    | error err =>
      cases err with
      | certificatePending m =>
        right
        refine ⟨client, rfl, ?_⟩
        simp [Venafi.Sign, hb, hs, NewReporter, Reporter.Pending] at he
        subst he
        exact hs
      | retrieveTimeout m =>
        simp [Venafi.Sign, hb, hs, NewReporter, Reporter.Failed] at he
      | notFound m =>
        right
        refine ⟨client, rfl, ?_⟩
        simp [Venafi.Sign, hb, hs, NewReporter, Reporter.Pending] at he
        subst he
        exact hs
      | generic m =>
        right
        refine ⟨client, rfl, ?_⟩
        simp [Venafi.Sign, hb, hs, NewReporter, Reporter.Pending] at he
        subst he
        exact hs
    | ok pem => simp [Venafi.Sign, hb, hs, NewReporter] at he

/-- C10 (witness): the passthrough theorem at the generic-transport
fixture. -/
theorem C10_error_passthrough_witness :
    vGeneric.clientBuilder crEx.ns issEx =
      Except.error (GoError.generic "connection refused") ∨
    ∃ c, vGeneric.clientBuilder crEx.ns issEx = Except.ok c ∧
      c crEx.spec.csrPEM (DefaultCertDuration crEx.spec.duration) =
        Except.error (GoError.generic "connection refused") :=
  C10_error_passthrough vGeneric crEx issEx
    (GoError.generic "connection refused") rfl

end CertManager
